import Mathlib

/-!
Verification development for the MultiTasking OneWire SensorHUB firmware.

The definitions below are a shallow embedding of the relevant C++ source:
  * `src/src/OneWireManager.cpp` — sensor registry, scan/merge, collect cycle,
    cached-temperature lookup;
  * `src/src/MqttManager.cpp` — broker reconnection gating and delay state;
  * `src/src/NetworkTask.cpp` — batched publication cycle;
  * `src/src/ControlTask.cpp` — relay request/actual reconciliation.

Temperatures are modelled as rationals: the embedded code only copies
temperature values and compares them against the sentinels -127 and 85,
operations that are exact on `float` and on `ℚ` alike.  Timestamps are
naturals carrying `millis()` values; the firmware's `uint32_t` subtraction
is modelled explicitly by `sub32`.  The `uint8_t` error counter wraps
modulo 256, which the embedding preserves.
-/

/-- DEVICE_DISCONNECTED_C from the DallasTemperature library: the sentinel
returned for a sensor that does not answer. -/
def DEVICE_DISCONNECTED_C : ℚ := -127

/-- MAX_RETRIES from `OneWireManager.h` line 35. -/
def MAX_RETRIES : Nat := 3

/-- Wrap-around subtraction of two `uint32_t` millisecond counters, as the
C++ expression `now - before` computes it (both operands reduced mod 2^32). -/
def sub32 (now before : Nat) : Nat :=
  (now % 2 ^ 32 + 2 ^ 32 - before % 2 ^ 32) % 2 ^ 32

/-- TemperatureSensor from `SystemTypes.h` lines 86-95.  The address is the
8-byte unique bus identifier; `friendlyName` is irrelevant to the claims
and omitted from the embedding. -/
structure TemperatureSensor where
  address : List Nat
  temperature : ℚ
  lastValidReading : ℚ
  lastReadTime : Nat
  consecutiveErrors : Nat
  isActive : Bool
  valid : Bool
  deriving Repr, DecidableEq

/-- The per-sensor body of the loop in
`OneWireManager::checkAndCollectTemperatures` (`OneWireManager.cpp`
lines 71-91): `temp` is the raw value `sensors.getTempC` returned for this
sensor, `now` is `millis()`.  A result distinct from both sentinels updates
the record to a fresh valid reading; otherwise the error counter is
incremented (as a `uint8_t`, hence mod 256), validity is cleared once the
counter exceeds `MAX_RETRIES`, and the displayed temperature falls back to
the last valid reading. -/
def collectOne (temp : ℚ) (now : Nat) (s : TemperatureSensor) : TemperatureSensor :=
  if temp ≠ DEVICE_DISCONNECTED_C ∧ temp ≠ 85 then
    { s with
      temperature := temp
      lastValidReading := temp
      lastReadTime := now
      valid := true
      consecutiveErrors := 0 }
  else
    let e := (s.consecutiveErrors + 1) % 256
    { s with
      consecutiveErrors := e
      valid := if e > MAX_RETRIES then false else s.valid
      temperature := s.lastValidReading }

/-- Whether a raw reading counts as clean in
`OneWireManager::checkAndCollectTemperatures` line 75. -/
def cleanReading (temp : ℚ) : Prop :=
  temp ≠ DEVICE_DISCONNECTED_C ∧ temp ≠ 85

instance (temp : ℚ) : Decidable (cleanReading temp) := by
  unfold cleanReading; infer_instance

/-- `OneWireManager::checkAndCollectTemperatures` (`OneWireManager.cpp`
lines 59-98), under the mutex-acquired path: fold over the sensor list,
reading each sensor's raw value through the environment `getTempC`,
accumulating the updated list and the `success` flag that starts `true`
and is cleared by every failed read.  Returns `(success, updated list)`. -/
def checkAndCollectTemperatures (getTempC : List Nat → ℚ) (now : Nat)
    (sensorList : List TemperatureSensor) : Bool × List TemperatureSensor :=
  sensorList.foldl
    (fun acc s =>
      let temp := getTempC s.address
      (acc.1 && decide (cleanReading temp), acc.2 ++ [collectOne temp now s]))
    (true, [])

/-- The inner search of `OneWireManager::updateSensorList`
(`OneWireManager.cpp` lines 190-205): linear scan of the existing list for
the first record with the given address (the C++ loop `break`s at the first
`memcmp` match). -/
def findExisting (address : List Nat) :
    List TemperatureSensor → Option TemperatureSensor
  | [] => none
  | ex :: rest => if ex.address = address then some ex else findExisting address rest

/-- The per-candidate body of `OneWireManager::updateSensorList`
(`OneWireManager.cpp` lines 186-210): a candidate whose address matches an
existing record copies that record's `temperature`, `lastValidReading`,
`lastReadTime`, `valid` and `consecutiveErrors` — but only when the
existing record is `valid` (line 194); otherwise, and when no record
matches, the candidate is kept as scanned. -/
def mergeOne (sensorList : List TemperatureSensor)
    (newSensor : TemperatureSensor) : TemperatureSensor :=
  match findExisting newSensor.address sensorList with
  | some existingSensor =>
    if existingSensor.valid then
      { newSensor with
        temperature := existingSensor.temperature
        lastValidReading := existingSensor.lastValidReading
        lastReadTime := existingSensor.lastReadTime
        valid := existingSensor.valid
        consecutiveErrors := existingSensor.consecutiveErrors }
    else newSensor
  | none => newSensor

/-- `OneWireManager::updateSensorList` (`OneWireManager.cpp` lines 177-226),
under the mutex-acquired path: the registry is replaced by the candidate
list, each candidate spliced with prior state via `mergeOne`. -/
def updateSensorList (sensorList newList : List TemperatureSensor) :
    List TemperatureSensor :=
  newList.map (mergeOne sensorList)

/-- One device slot as the scan loop of
`OneWireManager::processFoundDevices` sees it: whether
`sensors.getAddress` succeeded, the 8-byte address it produced, and
whether `sensors.validAddress` accepts that address. -/
structure ScanDevice where
  getAddressOk : Bool
  address : List Nat
  validAddress : Bool
  deriving Repr, DecidableEq

/-- The fresh record `OneWireManager::processFoundDevices` builds for a
discovered device (`OneWireManager.cpp` lines 154-163): active, invalid,
unread, both temperature fields at the disconnect sentinel. -/
def freshSensor (address : List Nat) : TemperatureSensor :=
  { address := address
    isActive := true
    valid := false
    consecutiveErrors := 0
    temperature := DEVICE_DISCONNECTED_C
    lastValidReading := DEVICE_DISCONNECTED_C
    lastReadTime := 0 }

/-- `OneWireManager::processFoundDevices` (`OneWireManager.cpp` lines
146-174): push a fresh record for every device whose address was read and
validated; the boolean result (`anyDeviceProcessed`) is the produced list
being nonempty, so only the list is returned here. -/
def processFoundDevices (devices : List ScanDevice) : List TemperatureSensor :=
  (devices.filter (fun d => d.getAddressOk && d.validAddress)).map
    (fun d => freshSensor d.address)

/-- MAX_ONEWIRE_SENSORS from `Config.h` line 26. -/
def MAX_ONEWIRE_SENSORS : Nat := 16

/-- One retry iteration of the scan loop in `OneWireManager::scanDevices`
(`OneWireManager.cpp` lines 114-129): `devices` is what the bus presents
on this attempt; `getDeviceCount` is its length, and when positive the
first `min count MAX_ONEWIRE_SENSORS` devices are processed. -/
def scanAttempt (devices : List ScanDevice) : List TemperatureSensor :=
  if devices.length > 0 then
    processFoundDevices (devices.take (min devices.length MAX_ONEWIRE_SENSORS))
  else []

/-- The registry-owning state of `OneWireManager` relevant to the claims:
the sensor list and the last successful scan timestamp. -/
structure OWState where
  sensorList : List TemperatureSensor
  lastScanTime : Nat
  deriving Repr, DecidableEq

/-- The first scan attempt (among at most `MAX_RETRIES`) that processed at
least one device, mirroring `scanSuccess`/`break` in
`OneWireManager::scanDevices` lines 114-129. -/
def firstSuccessfulAttempt (attempts : List (List ScanDevice)) :
    Option (List TemperatureSensor) :=
  ((attempts.take MAX_RETRIES).map scanAttempt).find? (fun l => !l.isEmpty)

/-- `OneWireManager::scanDevices` (`OneWireManager.cpp` lines 101-143):
if the bus is busy the call fails immediately; otherwise up to
`MAX_RETRIES` attempts run, and only when one succeeds is
`updateSensorList` invoked and `lastScanTime` stamped with `now`.
Returns `(scanSuccess, new state)`. -/
def scanDevices (busBusy : Bool) (attempts : List (List ScanDevice))
    (now : Nat) (st : OWState) : Bool × OWState :=
  if busBusy then (false, st)
  else
    match firstSuccessfulAttempt attempts with
    | some tempList =>
      (true, { sensorList := updateSensorList st.sensorList tempList
               lastScanTime := now })
    | none => (false, st)

/-- `OneWireManager::getSensorList` (`OneWireManager.cpp` lines 229-245),
mutex-acquired path: the value read out of the critical section is the
current sensor list (the aliasing of the returned reference is a memory
property outside this embedding). -/
def getSensorList (st : OWState) : List TemperatureSensor :=
  st.sensorList

/-- `OneWireManager::getCachedTemperature` (`OneWireManager.cpp` lines
315-359), mutex-acquired path: find the first record with the requested
address; an invalid record read less than 60000 ms ago yields its
`lastValidReading`, any other found record yields its `temperature`, and
an absent address yields the disconnect sentinel. -/
def getCachedTemperature (sensorList : List TemperatureSensor)
    (address : List Nat) (now : Nat) : ℚ :=
  match findExisting address sensorList with
  | some sensor =>
    if ¬sensor.valid ∧ sub32 now sensor.lastReadTime < 60000 then
      sensor.lastValidReading
    else
      sensor.temperature
  | none => DEVICE_DISCONNECTED_C

/-- INITIAL_RECONNECT_DELAY from `MqttManager.h` line 52. -/
def INITIAL_RECONNECT_DELAY : Nat := 1000

/-- MAX_RECONNECT_DELAY from `MqttManager.h` line 53. -/
def MAX_RECONNECT_DELAY : Nat := 60000

/-- RECONNECT_INTERVAL from `MqttManager.h` line 55. -/
def RECONNECT_INTERVAL : Nat := 5000

/-- The connection-relevant state of `MqttManager`: whether the broker
link is up, `lastReconnectAttempt` and `currentReconnectDelay`
(`MqttManager.h` lines 41-43). -/
structure MqttState where
  connected : Bool
  lastReconnectAttempt : Nat
  currentReconnectDelay : Nat
  deriving Repr, DecidableEq

/-- `MqttManager::getReconnectDelay` (`MqttManager.cpp` lines 239-243). -/
def getReconnectDelay (st : MqttState) : Nat :=
  if st.currentReconnectDelay = 0 then INITIAL_RECONNECT_DELAY
  else min (st.currentReconnectDelay * 2) MAX_RECONNECT_DELAY

/-- The environment one `maintainConnection` call observes: whether
`ETH.linkUp()` holds and the broker is configured, whether the
`mqtt.connect` handshake would succeed, and whether the broker connection
was lost since the previous call. -/
structure MqttEnv where
  linkReady : Bool
  connectOk : Bool
  dropped : Bool
  deriving Repr, DecidableEq

/-- `MqttManager::reconnect` (`MqttManager.cpp` lines 191-237): bail out
untouched when the link is down or unconfigured; otherwise stamp
`currentReconnectDelay` with `getReconnectDelay()`, and on a successful
handshake reset it to 0 and mark the client connected. -/
def reconnect (env : MqttEnv) (st : MqttState) : Bool × MqttState :=
  if !env.linkReady then (false, st)
  else
    let st1 := { st with currentReconnectDelay := getReconnectDelay st }
    if env.connectOk then
      (true, { st1 with currentReconnectDelay := 0, connected := true })
    else (false, st1)

/-- `MqttManager::maintainConnection` (`MqttManager.cpp` lines 31-44) at
time `now`: when disconnected, attempt a reconnect only once
`RECONNECT_INTERVAL` ms have elapsed since `lastReconnectAttempt`, and
stamp `lastReconnectAttempt := now` around any attempt.  Returns
`(return value, whether a reconnect was attempted, new state)`. -/
def maintainConnection (now : Nat) (env : MqttEnv) (st : MqttState) :
    Bool × Bool × MqttState :=
  let st0 := if env.dropped then { st with connected := false } else st
  if !st0.connected then
    if RECONNECT_INTERVAL ≤ sub32 now st0.lastReconnectAttempt then
      let r := reconnect env st0
      (r.1, true, { r.2 with lastReconnectAttempt := now })
    else (false, false, st0)
  else (true, false, st0)

/-- A sequence of `maintainConnection` calls at the scheduled times under
the scheduled environments, collecting the times at which a reconnect was
actually attempted. -/
def mqttRun (st : MqttState) : List (Nat × MqttEnv) → List Nat × MqttState
  | [] => ([], st)
  | (now, env) :: rest =>
    let step := maintainConnection now env st
    let tail := mqttRun step.2.2 rest
    (if step.2.1 then now :: tail.1 else tail.1, tail.2)

/-- SENSOR_BATCH_SIZE from `NetworkTask.cpp` line 13. -/
def SENSOR_BATCH_SIZE : Nat := 4

/-- BATCH_DELAY_MS from `NetworkTask.cpp` line 14. -/
def BATCH_DELAY_MS : Nat := 500

/-- SENSOR_DELAY_MS from `NetworkTask.cpp` line 15. -/
def SENSOR_DELAY_MS : Nat := 100

/-- Observable actions of one publication cycle of `NetworkTask`:
publishing the display sensor's temperature, publishing one sensor's
record, publishing one relay's state, and the explicit `vTaskDelay`
pauses. -/
inductive PubEvent where
  | pubDisplay (address : List Nat) (temperature : ℚ)
  | pubSensor (sensor : TemperatureSensor)
  | pubRelayState (relayId : Nat) (state : Bool)
  | delayMs (ms : Nat)
  deriving Repr, DecidableEq

/-- `NetworkTask::publishSensorBatch` (`NetworkTask.cpp` lines 69-87) with
the MQTT link stable: publish each sensor of the batch followed by a
`SENSOR_DELAY_MS` pause, then a `BATCH_DELAY_MS` pause. -/
def publishSensorBatch (sensors : List TemperatureSensor)
    (startIdx count : Nat) : List PubEvent :=
  let endIdx := min (startIdx + count) sensors.length
  (((sensors.drop startIdx).take (endIdx - startIdx)).map
      (fun s => [PubEvent.pubSensor s, PubEvent.delayMs SENSOR_DELAY_MS])).flatten
    ++ [PubEvent.delayMs BATCH_DELAY_MS]

/-- The publication cycle of `NetworkTask::taskFunction`
(`NetworkTask.cpp` lines 105-153) with the MQTT link stable: the record
matching the configured display-sensor address (first `memcmp` match, if
any) is published first and on its own; then all sensors are published in
`ceil(total / SENSOR_BATCH_SIZE)` batches through `publishSensorBatch`,
and both relay states are published right after the first batch. -/
def publicationCycle (sensors : List TemperatureSensor)
    (displaySensorAddr : List Nat) (relay0 relay1 : Bool) : List PubEvent :=
  let displayEvents :=
    match findExisting displaySensorAddr sensors with
    | some sensor => [PubEvent.pubDisplay displaySensorAddr sensor.temperature]
    | none => []
  let totalSensors := sensors.length
  let numBatches := (totalSensors + SENSOR_BATCH_SIZE - 1) / SENSOR_BATCH_SIZE
  displayEvents ++
    ((List.range numBatches).map (fun batchIdx =>
      let startIdx := batchIdx * SENSOR_BATCH_SIZE
      let batchSize := min SENSOR_BATCH_SIZE (totalSensors - startIdx)
      publishSensorBatch sensors startIdx batchSize ++
        (if batchIdx = 0 then
          [PubEvent.pubRelayState 0 relay0, PubEvent.pubRelayState 1 relay1]
        else []))).flatten

/-- RelayState from `SystemTypes.h` lines 48-52. -/
structure RelayState where
  requested : Bool
  actual : Bool
  lastChangeTime : Nat
  deriving Repr, DecidableEq

/-- The payload of a `RELAY_CHANGE_REQUEST` message
(`SystemTypes.h` lines 28-31). -/
structure RelayChangeRequest where
  relayId : Fin 2
  state : Bool
  deriving Repr, DecidableEq

/-- One step of the message-draining loop of `ControlTask::taskFunction`
(`ControlTask.cpp` lines 89-99): a queued relay-change request sets the
addressed relay's `requested` field.  The two-element `relayStates` array
is modelled as a pair. -/
def applyRelayMessage (states : RelayState × RelayState)
    (msg : RelayChangeRequest) : RelayState × RelayState :=
  if msg.relayId = 0 then ({ states.1 with requested := msg.state }, states.2)
  else (states.1, { states.2 with requested := msg.state })

/-- The message-draining loop of `ControlTask::taskFunction`: drain the
queue in arrival order. -/
def processRelayMessages (msgs : List RelayChangeRequest)
    (states : RelayState × RelayState) : RelayState × RelayState :=
  msgs.foldl applyRelayMessage states

/-- The per-relay body of the reconciliation loop of
`ControlTask::taskFunction` (`ControlTask.cpp` lines 103-114): a mismatch
between `requested` and `actual` drives the output, copies `requested`
into `actual` and stamps `lastChangeTime`. -/
def reconcileRelay (now : Nat) (r : RelayState) : RelayState :=
  if r.requested ≠ r.actual then
    { r with actual := r.requested, lastChangeTime := now }
  else r

/-- The `digitalWrite` calls the reconciliation loop issues for one relay:
one write of the requested level on a mismatch, none otherwise. -/
def relayWrite (r : RelayState) : List Bool :=
  if r.requested ≠ r.actual then [r.requested] else []

/-- One actuation tick of `ControlTask::taskFunction`
(`ControlTask.cpp` lines 86-116): drain the queued relay messages, then
reconcile relay 0 and relay 1 in order.  Returns the new relay states and
the physical writes issued, tagged with the relay they drive. -/
def controlTick (msgs : List RelayChangeRequest) (now : Nat)
    (states : RelayState × RelayState) :
    (RelayState × RelayState) × List (Fin 2 × Bool) :=
  let st1 := processRelayMessages msgs states
  ((reconcileRelay now st1.1, reconcileRelay now st1.2),
    ((relayWrite st1.1).map (fun b => ((0 : Fin 2), b))) ++
      ((relayWrite st1.2).map (fun b => ((1 : Fin 2), b))))

/-- The record of the relay `r` in the two-element state pair. -/
def relayAt (r : Fin 2) (states : RelayState × RelayState) : RelayState :=
  if r = 0 then states.1 else states.2

/-- The collect fold expressed pointwise: the success flag is the
conjunction of per-sensor cleanliness and the accumulated list is the map
of the per-sensor update, independent of any other sensor's outcome. -/
lemma checkAndCollect_foldl (g : List Nat → ℚ) (now : Nat)
    (l : List TemperatureSensor) (b : Bool) (acc : List TemperatureSensor) :
    l.foldl
      (fun acc s =>
        let temp := g s.address
        (acc.1 && decide (cleanReading temp), acc.2 ++ [collectOne temp now s]))
      (b, acc)
    = (b && l.all (fun s => decide (cleanReading (g s.address))),
       acc ++ l.map (fun s => collectOne (g s.address) now s)) := by
  induction l generalizing b acc with
  | nil => simp
  | cons s rest ih => simp [ih, Bool.and_assoc]

/-- Claim C5: `collect()` returns `false` iff at least one tracked sensor
produced a sentinel reading that cycle, returns `true` exactly when every
sensor read cleanly, and the resulting record list is the pointwise
per-sensor update — so one failing sensor never blocks another sensor's
record from being updated in the same call. -/
theorem checkAndCollect_success_iff (g : List Nat → ℚ) (now : Nat)
    (l : List TemperatureSensor) :
    ((checkAndCollectTemperatures g now l).1 = true ↔
      ∀ s ∈ l, cleanReading (g s.address)) ∧
    ((checkAndCollectTemperatures g now l).1 = false ↔
      ∃ s ∈ l, ¬cleanReading (g s.address)) ∧
    (checkAndCollectTemperatures g now l).2
      = l.map (fun s => collectOne (g s.address) now s) := by
  unfold checkAndCollectTemperatures
  rw [checkAndCollect_foldl]
  refine ⟨by simp [List.all_eq_true], ?_, by simp⟩
  simp only [Bool.true_and]
  rw [← Bool.not_eq_true, List.all_eq_true]
  push_neg
  simp

/-- Claim C3 as stated is false: the code's failure branch writes
`lastValidReading` back into `temperature` rather than the value of the
most recent (failed) read attempt.  A valid sensor holding 20 °C whose
raw read returns the power-on-reset value 85 ends the cycle with
`temperature = 20`, not 85. -/
theorem collectOne_failed_read_keeps_old_value :
    (collectOne 85 5000
      { address := [1], temperature := 20, lastValidReading := 20,
        lastReadTime := 1000, consecutiveErrors := 0, isActive := true,
        valid := true }).temperature = 20 ∧ (20 : ℚ) ≠ 85 := by
  constructor
  · rfl
  · decide

/-- Claim C3, amended: after a collect cycle, `temperature` mirrors the
most recent read attempt only when that attempt succeeded; on a failed
read both `temperature` and `lastValidReading` hold the previous
`lastValidReading`.  `lastValidReading` is sticky: it changes only on a
successful read. -/
theorem collectOne_temperature_policy :
    (∀ (temp : ℚ) (now : Nat) (s : TemperatureSensor), cleanReading temp →
      (collectOne temp now s).temperature = temp ∧
      (collectOne temp now s).lastValidReading = temp) ∧
    (∀ (temp : ℚ) (now : Nat) (s : TemperatureSensor), ¬cleanReading temp →
      (collectOne temp now s).temperature = s.lastValidReading ∧
      (collectOne temp now s).lastValidReading = s.lastValidReading) ∧
    (∀ (temp : ℚ) (now : Nat) (s : TemperatureSensor),
      (collectOne temp now s).lastValidReading ≠ s.lastValidReading →
      cleanReading temp) := by
  refine ⟨fun temp now s h => ?_, fun temp now s h => ?_, fun temp now s h => ?_⟩
  · have hc2 : temp ≠ DEVICE_DISCONNECTED_C ∧ temp ≠ 85 := h
    unfold collectOne
    rw [if_pos hc2]
    exact ⟨rfl, rfl⟩
  · have hc2 : ¬(temp ≠ DEVICE_DISCONNECTED_C ∧ temp ≠ 85) := h
    unfold collectOne
    rw [if_neg hc2]
    exact ⟨rfl, rfl⟩
  · by_contra hc
    have hc2 : ¬(temp ≠ DEVICE_DISCONNECTED_C ∧ temp ≠ 85) := hc
    apply h
    unfold collectOne
    rw [if_neg hc2]

/-- Witness for `collectOne_temperature_policy` at concrete inputs: a
clean 21 °C read lands in `temperature`, a failed 85 °C read keeps the
previous last valid reading 20. -/
theorem collectOne_temperature_policy_witness :
    (collectOne 21 7
      { address := [1], temperature := 20, lastValidReading := 20,
        lastReadTime := 1000, consecutiveErrors := 0, isActive := true,
        valid := true }).temperature = 21 ∧
    (collectOne 85 7
      { address := [1], temperature := 20, lastValidReading := 20,
        lastReadTime := 1000, consecutiveErrors := 0, isActive := true,
        valid := true }).temperature = 20 :=
  ⟨(collectOne_temperature_policy.1 21 7
      { address := [1], temperature := 20, lastValidReading := 20,
        lastReadTime := 1000, consecutiveErrors := 0, isActive := true,
        valid := true } (by decide)).1,
   (collectOne_temperature_policy.2.1 85 7
      { address := [1], temperature := 20, lastValidReading := 20,
        lastReadTime := 1000, consecutiveErrors := 0, isActive := true,
        valid := true } (by decide)).1⟩

/-- Claim C4: per collect step, `valid` drops from true to false only when
the incremented error counter exceeds `MAX_RETRIES` (3); an invalid sensor
stays invalid across failed reads; a successful read sets `valid := true`
and resets `consecutiveErrors` to 0; and a failed read whose resulting
counter is still at most the threshold leaves `valid` unchanged. -/
theorem collectOne_valid_hysteresis :
    (∀ (temp : ℚ) (now : Nat) (s : TemperatureSensor),
      s.valid = true → (collectOne temp now s).valid = false →
      MAX_RETRIES < (collectOne temp now s).consecutiveErrors) ∧
    (∀ (temp : ℚ) (now : Nat) (s : TemperatureSensor),
      s.valid = false → ¬cleanReading temp →
      (collectOne temp now s).valid = false) ∧
    (∀ (temp : ℚ) (now : Nat) (s : TemperatureSensor), cleanReading temp →
      (collectOne temp now s).valid = true ∧
      (collectOne temp now s).consecutiveErrors = 0) ∧
    (∀ (temp : ℚ) (now : Nat) (s : TemperatureSensor), ¬cleanReading temp →
      (collectOne temp now s).consecutiveErrors ≤ MAX_RETRIES →
      (collectOne temp now s).valid = s.valid) := by
  refine ⟨fun temp now s hv h => ?_, fun temp now s hv h => ?_,
    fun temp now s h => ?_, fun temp now s h hle => ?_⟩
  · unfold collectOne at h ⊢
    by_cases hcl : temp ≠ DEVICE_DISCONNECTED_C ∧ temp ≠ 85
    · rw [if_pos hcl] at h
      simp at h
    · rw [if_neg hcl] at h ⊢
      by_cases hgt : (s.consecutiveErrors + 1) % 256 > MAX_RETRIES
      · show MAX_RETRIES < (s.consecutiveErrors + 1) % 256
        exact hgt
      · have h2 : (if (s.consecutiveErrors + 1) % 256 > MAX_RETRIES
            then false else s.valid) = false := h
        rw [if_neg hgt, hv] at h2
        simp at h2
  · have hc2 : ¬(temp ≠ DEVICE_DISCONNECTED_C ∧ temp ≠ 85) := h
    unfold collectOne
    rw [if_neg hc2]
    show (if (s.consecutiveErrors + 1) % 256 > MAX_RETRIES
        then false else s.valid) = false
    by_cases hgt : (s.consecutiveErrors + 1) % 256 > MAX_RETRIES
    · rw [if_pos hgt]
    · rw [if_neg hgt]
      exact hv
  · have hc2 : temp ≠ DEVICE_DISCONNECTED_C ∧ temp ≠ 85 := h
    unfold collectOne
    rw [if_pos hc2]
    exact ⟨rfl, rfl⟩
  · have hc2 : ¬(temp ≠ DEVICE_DISCONNECTED_C ∧ temp ≠ 85) := h
    unfold collectOne at hle ⊢
    rw [if_neg hc2] at hle ⊢
    have h2 : (s.consecutiveErrors + 1) % 256 ≤ MAX_RETRIES := hle
    show (if (s.consecutiveErrors + 1) % 256 > MAX_RETRIES
        then false else s.valid) = s.valid
    rw [if_neg (by omega)]

/-- Witness for `collectOne_valid_hysteresis`: concrete instances of each
branch — a fourth consecutive failure invalidates, an invalid sensor stays
invalid on failure, a clean read revalidates and resets the counter, and a
first failure leaves a valid sensor valid. -/
theorem collectOne_valid_hysteresis_witness :
    (MAX_RETRIES <
      (collectOne 85 7
        { address := [1], temperature := 20, lastValidReading := 20,
          lastReadTime := 1000, consecutiveErrors := 3, isActive := true,
          valid := true }).consecutiveErrors) ∧
    ((collectOne (-127) 7
        { address := [1], temperature := 20, lastValidReading := 20,
          lastReadTime := 1000, consecutiveErrors := 9, isActive := true,
          valid := false }).valid = false) ∧
    ((collectOne 21 7
        { address := [1], temperature := 20, lastValidReading := 20,
          lastReadTime := 1000, consecutiveErrors := 9, isActive := true,
          valid := false }).valid = true) ∧
    ((collectOne 85 7
        { address := [1], temperature := 20, lastValidReading := 20,
          lastReadTime := 1000, consecutiveErrors := 0, isActive := true,
          valid := true }).valid = true) :=
  ⟨collectOne_valid_hysteresis.1 85 7
      { address := [1], temperature := 20, lastValidReading := 20,
        lastReadTime := 1000, consecutiveErrors := 3, isActive := true,
        valid := true } rfl (by decide),
   collectOne_valid_hysteresis.2.1 (-127) 7
      { address := [1], temperature := 20, lastValidReading := 20,
        lastReadTime := 1000, consecutiveErrors := 9, isActive := true,
        valid := false } rfl (by decide),
   (collectOne_valid_hysteresis.2.2.1 21 7
      { address := [1], temperature := 20, lastValidReading := 20,
        lastReadTime := 1000, consecutiveErrors := 9, isActive := true,
        valid := false } (by decide)).1,
   (collectOne_valid_hysteresis.2.2.2 85 7
        { address := [1], temperature := 20, lastValidReading := 20,
          lastReadTime := 1000, consecutiveErrors := 0, isActive := true,
          valid := true } (by decide) (by decide)).trans rfl⟩

/-- Claim C1 as stated is false: when the address of a candidate matches a
registry record that is currently invalid, `updateSensorList` keeps the
candidate's freshly initialised fields instead of carrying the old
record's `consecutiveErrors` and `lastValidReading` over.  The record at
address `[1]` held `consecutiveErrors = 2` and `lastValidReading = 19`,
yet the merged registry holds `0` and the disconnect sentinel. -/
theorem updateSensorList_drops_invalid_history :
    updateSensorList
      [{ address := [1], temperature := 19, lastValidReading := 19,
         lastReadTime := 1000, consecutiveErrors := 2, isActive := true,
         valid := false }]
      [freshSensor [1]]
    = [freshSensor [1]] ∧
    (freshSensor [1]).consecutiveErrors = 0 ∧
    (freshSensor [1]).lastValidReading = DEVICE_DISCONNECTED_C ∧
    (2 : Nat) ≠ 0 ∧ (19 : ℚ) ≠ DEVICE_DISCONNECTED_C := by
  refine ⟨rfl, rfl, rfl, by decide, by decide⟩

/-- When the addresses in a list are pairwise distinct, the linear search
returns exactly the member carrying the searched address. -/
lemma findExisting_eq_some_of_mem {l : List TemperatureSensor}
    {ex : TemperatureSensor} {addr : List Nat}
    (hnd : (l.map TemperatureSensor.address).Nodup)
    (hmem : ex ∈ l) (haddr : ex.address = addr) :
    findExisting addr l = some ex := by
  induction l with
  | nil => cases hmem
  | cons a rest ih =>
    rcases List.mem_cons.mp hmem with h | h
    · subst h
      simp [findExisting, haddr]
    · have hne : a.address ≠ addr := by
        intro heq
        have : ex.address ∈ rest.map TemperatureSensor.address :=
          List.mem_map_of_mem TemperatureSensor.address h
        rw [haddr, ← heq] at this
        exact (List.nodup_cons.mp (by simpa using hnd)).1 this
      simp only [findExisting, if_neg hne]
      exact ih (List.nodup_cons.mp (by simpa using hnd)).2 h

/-- Whatever the linear search returns is a member of the list and lies at
the searched address. -/
lemma findExisting_mem {l : List TemperatureSensor}
    {ex : TemperatureSensor} {addr : List Nat}
    (h : findExisting addr l = some ex) : ex ∈ l ∧ ex.address = addr := by
  induction l with
  | nil => cases h
  | cons a rest ih =>
    by_cases ha : a.address = addr
    · simp only [findExisting, if_pos ha, Option.some.injEq] at h
      subst h
      exact ⟨List.mem_cons_self a rest, ha⟩
    · simp only [findExisting, if_neg ha] at h
      obtain ⟨hm, he⟩ := ih h
      exact ⟨List.mem_cons_of_mem a hm, he⟩

/-- Claim C1, amended: after a successful scan the registry carries exactly
the candidate addresses, in order; a candidate whose address matches a
*valid* prior record inherits that record's `temperature`,
`lastValidReading`, `lastReadTime`, `valid` and `consecutiveErrors`, while
a candidate whose prior record is invalid — like one with no prior record
at all — enters the registry with its fresh initialised state. -/
theorem updateSensorList_merge_policy
    (old newList : List TemperatureSensor)
    (hnd : (old.map TemperatureSensor.address).Nodup) :
    ((updateSensorList old newList).map TemperatureSensor.address
      = newList.map TemperatureSensor.address) ∧
    (∀ n ∈ newList, ∀ ex ∈ old, ex.address = n.address → ex.valid = true →
      { n with temperature := ex.temperature
               lastValidReading := ex.lastValidReading
               lastReadTime := ex.lastReadTime
               valid := ex.valid
               consecutiveErrors := ex.consecutiveErrors }
        ∈ updateSensorList old newList) ∧
    (∀ n ∈ newList, (∀ ex ∈ old, ex.address = n.address → ex.valid = false) →
      n ∈ updateSensorList old newList) := by
  refine ⟨?_, ?_, ?_⟩
  · unfold updateSensorList
    rw [List.map_map]
    apply List.map_congr_left
    intro n _
    show (mergeOne old n).address = n.address
    unfold mergeOne
    cases hfe : findExisting n.address old with
    | none => rfl
    | some ex =>
      by_cases hv : ex.valid
      · simp [hv]
      · simp [hv]
  · intro n hn ex hex haddr hv
    have hfe : findExisting n.address old = some ex :=
      findExisting_eq_some_of_mem hnd hex haddr
    have : mergeOne old n
        = { n with temperature := ex.temperature
                   lastValidReading := ex.lastValidReading
                   lastReadTime := ex.lastReadTime
                   valid := ex.valid
                   consecutiveErrors := ex.consecutiveErrors } := by
      unfold mergeOne
      rw [hfe]
      simp [hv]
    rw [← this]
    exact List.mem_map_of_mem (mergeOne old) hn
  · intro n hn hall
    have : mergeOne old n = n := by
      unfold mergeOne
      cases hfe : findExisting n.address old with
      | none => rfl
      | some ex =>
        obtain ⟨hmem, haddr⟩ := findExisting_mem hfe
        simp [hall ex hmem haddr]
    rw [← this]
    exact List.mem_map_of_mem (mergeOne old) hn

/-- Witness for `updateSensorList_merge_policy`: with a valid prior record
at address `[1]` holding reading 7, the re-scanned registry contains the
candidate spliced with that history. -/
theorem updateSensorList_merge_policy_witness :
    { freshSensor [1] with temperature := (7 : ℚ)
                           lastValidReading := (7 : ℚ)
                           lastReadTime := 1000
                           valid := true
                           consecutiveErrors := 1 }
      ∈ updateSensorList
          [{ address := [1], temperature := 7, lastValidReading := 7,
             lastReadTime := 1000, consecutiveErrors := 1, isActive := true,
             valid := true }]
          [freshSensor [1]] :=
  (updateSensorList_merge_policy
      [{ address := [1], temperature := 7, lastValidReading := 7,
         lastReadTime := 1000, consecutiveErrors := 1, isActive := true,
         valid := true }]
      [freshSensor [1]] (by decide)).2.1
    (freshSensor [1]) (by decide)
    { address := [1], temperature := 7, lastValidReading := 7,
      lastReadTime := 1000, consecutiveErrors := 1, isActive := true,
      valid := true } (by decide) rfl rfl

/-- Claim C10: whenever `scanDevices` returns false — the bus was busy, or
every retry attempt came up empty — the registry state (sensor list and
scan timestamp) is returned unchanged: the merge runs only on a
successful scan. -/
theorem scanDevices_failure_preserves_state
    (busBusy : Bool) (attempts : List (List ScanDevice)) (now : Nat)
    (st : OWState)
    (h : (scanDevices busBusy attempts now st).1 = false) :
    (scanDevices busBusy attempts now st).2 = st := by
  unfold scanDevices at h ⊢
  by_cases hb : busBusy
  · simp [hb]
  · simp only [hb, Bool.false_eq_true, if_neg, ite_false] at h ⊢
    cases hfs : firstSuccessfulAttempt attempts with
    | none => simp [hfs]
    | some tempList => rw [hfs] at h; simp at h

/-- Witness for `scanDevices_failure_preserves_state`: three empty scan
attempts leave a one-sensor registry untouched. -/
theorem scanDevices_failure_preserves_state_witness :
    (scanDevices false [[], [], []] 999
      { sensorList := [freshSensor [1]], lastScanTime := 3 }).2
    = { sensorList := [freshSensor [1]], lastScanTime := 3 } :=
  scanDevices_failure_preserves_state false [[], [], []] 999
    { sensorList := [freshSensor [1]], lastScanTime := 3 } (by decide)

/-- Registry record A of the claim-C8 scenario: valid, reading 21.5 °C,
read at t = 100000 ms. -/
def sensorA : TemperatureSensor :=
  { address := [40, 0, 0, 0, 0, 0, 0, 1]
    temperature := 43 / 2
    lastValidReading := 43 / 2
    lastReadTime := 100000
    consecutiveErrors := 0
    isActive := true
    valid := true }

/-- Registry record B of the claim-C8 scenario: invalid, last valid
reading 19.0 °C taken 30 s before the lookup time (t = 70000 ms against a
lookup at t = 100000 ms); after the failed reads its `temperature` also
holds the last valid reading, as the collect cycle writes it. -/
def sensorB : TemperatureSensor :=
  { address := [40, 0, 0, 0, 0, 0, 0, 2]
    temperature := 19
    lastValidReading := 19
    lastReadTime := 70000
    consecutiveErrors := 4
    isActive := true
    valid := false }

/-- Claim C8: a `getSensorList` snapshot of the scenario registry shows
A valid at 21.5 °C and B invalid with last valid reading 19.0 °C, and the
cached-temperature display lookup for B's address 30 s after its last
read — inside the 60 s grace window — yields 19.0, not the disconnect
sentinel used as the error indicator. -/
theorem grace_window_display :
    getSensorList { sensorList := [sensorA, sensorB], lastScanTime := 0 }
      = [sensorA, sensorB] ∧
    sensorA.valid = true ∧ sensorA.temperature = 43 / 2 ∧
    sensorB.valid = false ∧ sensorB.lastValidReading = 19 ∧
    getCachedTemperature [sensorA, sensorB] [40, 0, 0, 0, 0, 0, 0, 2] 100000
      = 19 ∧
    (19 : ℚ) ≠ DEVICE_DISCONNECTED_C := by
  refine ⟨rfl, rfl, rfl, rfl, rfl, ?_, by decide⟩
  show getCachedTemperature [sensorA, sensorB] [40, 0, 0, 0, 0, 0, 0, 2] 100000 = 19
  decide

/-- On counters that have not wrapped, the `uint32_t` subtraction is plain
subtraction. -/
lemma sub32_eq_sub {a b : Nat} (hb : b ≤ a) (ha : a < 2 ^ 32) :
    sub32 a b = a - b := by
  unfold sub32
  have hb2 : b < 2 ^ 32 := lt_of_le_of_lt hb ha
  rw [Nat.mod_eq_of_lt ha, Nat.mod_eq_of_lt hb2]
  have h32 : (2 : Nat) ^ 32 = 4294967296 := by norm_num
  omega

/-- A strict chain from a point also chains from any earlier point. -/
lemma chain_lt_of_lt {a b : Nat} {l : List Nat} (hab : a < b)
    (h : List.Chain (· < ·) b l) : List.Chain (· < ·) a l := by
  cases l with
  | nil => exact List.Chain.nil
  | cons c rest =>
    rcases List.chain_cons.mp h with ⟨hbc, hrest⟩
    exact List.chain_cons.mpr ⟨lt_trans hab hbc, hrest⟩

/-- One `maintainConnection` step: a reconnect is attempted exactly when
the client observes itself disconnected and `RECONNECT_INTERVAL` has
elapsed since `lastReconnectAttempt`, and `lastReconnectAttempt` moves to
`now` on an attempt and is untouched otherwise. -/
lemma maintainConnection_step (now : Nat) (env : MqttEnv) (st : MqttState) :
    ((maintainConnection now env st).2.1 = true ↔
      ((env.dropped = true ∨ st.connected = false) ∧
        RECONNECT_INTERVAL ≤ sub32 now st.lastReconnectAttempt)) ∧
    ((maintainConnection now env st).2.2).lastReconnectAttempt
      = (if (maintainConnection now env st).2.1 then now
         else st.lastReconnectAttempt) := by
  unfold maintainConnection reconnect
  cases hd : env.dropped <;> cases hc : st.connected <;>
    cases hl : env.linkReady <;> cases hk : env.connectOk <;>
    by_cases hg : RECONNECT_INTERVAL ≤ sub32 now st.lastReconnectAttempt <;>
    simp [hd, hc, hl, hk, hg]

/-- Claim C2 as stated is false: with the broker configured, the link up
and every handshake failing, `maintainConnection` attempts reconnects at
5000, 10000, 15000 and 20000 ms — so the 4th attempt comes 5000 ms after
the 3rd, earlier than the `min(initialDelay * 2^(4-1), maxDelay)
= 8000` ms the claim requires.  The exponential delay that
`getReconnectDelay` computes is stored but never consulted by the timing
gate in `maintainConnection`. -/
theorem mqtt_backoff_delay_unused :
    (mqttRun
        { connected := false, lastReconnectAttempt := 0,
          currentReconnectDelay := 0 }
        [(5000, { linkReady := true, connectOk := false, dropped := false }),
         (10000, { linkReady := true, connectOk := false, dropped := false }),
         (15000, { linkReady := true, connectOk := false, dropped := false }),
         (20000, { linkReady := true, connectOk := false, dropped := false })]).1
      = [5000, 10000, 15000, 20000] ∧
    20000 - 15000 < min (INITIAL_RECONNECT_DELAY * 2 ^ (4 - 1))
      MAX_RECONNECT_DELAY := by
  constructor
  · decide
  · decide

/-- Claim C2, amended: reconnection attempts are gated only by the fixed
`RECONNECT_INTERVAL` of 5000 ms — along any schedule of strictly
increasing, non-wrapping call times, consecutive attempt times (and the
first attempt after `lastReconnectAttempt`) are at least 5000 ms apart —
and `currentReconnectDelay` is reset on any successful connect, so the
next `getReconnectDelay` yields the initial 1000 ms.  The exponential
value `min(initialDelay * 2^(n-1), maxDelay)` is computed but never
schedules attempts. -/
theorem mqtt_reconnect_gating :
    (∀ (sched : List (Nat × MqttEnv)) (st : MqttState),
      st.lastReconnectAttempt < 2 ^ 32 →
      (∀ t ∈ sched.map Prod.fst, t < 2 ^ 32) →
      List.Chain (· < ·) st.lastReconnectAttempt (sched.map Prod.fst) →
      List.Chain (fun a b => a + RECONNECT_INTERVAL ≤ b)
        st.lastReconnectAttempt (mqttRun st sched).1) ∧
    (∀ (now : Nat) (env : MqttEnv) (st : MqttState),
      (maintainConnection now env st).2.1 = true →
      (maintainConnection now env st).1 = true →
      ((maintainConnection now env st).2.2).currentReconnectDelay = 0 ∧
      getReconnectDelay (maintainConnection now env st).2.2
        = INITIAL_RECONNECT_DELAY) := by
  constructor
  · intro sched
    induction sched with
    | nil =>
      intro st _ _ _
      exact List.Chain.nil
    | cons p rest ih =>
      obtain ⟨now, env⟩ := p
      intro st hst hbound hchain
      have hlt : st.lastReconnectAttempt < now := (List.chain_cons.mp hchain).1
      have hchainTail : List.Chain (· < ·) now (rest.map Prod.fst) :=
        (List.chain_cons.mp hchain).2
      have hnow : now < 2 ^ 32 := hbound now (by simp)
      have hboundTail : ∀ t ∈ rest.map Prod.fst, t < 2 ^ 32 := by
        intro t ht
        exact hbound t (by simp [ht])
      obtain ⟨hiff, hlast⟩ := maintainConnection_step now env st
      by_cases hatt : (maintainConnection now env st).2.1 = true
      · have hgate : RECONNECT_INTERVAL ≤ sub32 now st.lastReconnectAttempt :=
          (hiff.mp hatt).2
        have hsub : sub32 now st.lastReconnectAttempt
            = now - st.lastReconnectAttempt :=
          sub32_eq_sub (le_of_lt hlt) hnow
        have hstep : st.lastReconnectAttempt + RECONNECT_INTERVAL ≤ now := by
          rw [hsub] at hgate
          omega
        have hlast2 : ((maintainConnection now env st).2.2).lastReconnectAttempt
            = now := by
          rw [hlast, if_pos hatt]
        have htail := ih (maintainConnection now env st).2.2
          (by rw [hlast2]; exact hnow) hboundTail
          (by rw [hlast2]; exact hchainTail)
        rw [hlast2] at htail
        simp only [mqttRun, hatt, if_true]
        exact List.chain_cons.mpr ⟨hstep, htail⟩
      · have hlast2 : ((maintainConnection now env st).2.2).lastReconnectAttempt
            = st.lastReconnectAttempt := by
          rw [hlast, if_neg (by simpa using hatt)]
        have hchain2 : List.Chain (· < ·) st.lastReconnectAttempt
            (rest.map Prod.fst) := chain_lt_of_lt hlt hchainTail
        have htail := ih (maintainConnection now env st).2.2
          (by rw [hlast2]; exact hst) hboundTail
          (by rw [hlast2]; exact hchain2)
        rw [hlast2] at htail
        simp only [mqttRun, hatt, if_false]
        simpa using htail
  · intro now env st hatt hret
    unfold maintainConnection reconnect at hatt hret ⊢
    cases hd : env.dropped <;> cases hc : st.connected <;>
      cases hl : env.linkReady <;> cases hk : env.connectOk <;>
      by_cases hg : RECONNECT_INTERVAL ≤ sub32 now st.lastReconnectAttempt <;>
      simp [hd, hc, hl, hk, hg, getReconnectDelay] at hatt hret ⊢

/-- Witness for `mqtt_reconnect_gating`: a single failed-then-successful
schedule — the attempt at t = 5000 respects the 5000 ms gate from the
initial timestamp 0, and a successful handshake resets the stored delay so
that `getReconnectDelay` yields the initial 1000 ms. -/
theorem mqtt_reconnect_gating_witness :
    List.Chain (fun a b => a + RECONNECT_INTERVAL ≤ b) 0
      (mqttRun
        { connected := false, lastReconnectAttempt := 0,
          currentReconnectDelay := 0 }
        [(5000, { linkReady := true, connectOk := true, dropped := false })]).1 ∧
    getReconnectDelay
      (maintainConnection 5000
        { linkReady := true, connectOk := true, dropped := false }
        { connected := false, lastReconnectAttempt := 0,
          currentReconnectDelay := 16000 }).2.2 = INITIAL_RECONNECT_DELAY :=
  ⟨mqtt_reconnect_gating.1
      [(5000, { linkReady := true, connectOk := true, dropped := false })]
      { connected := false, lastReconnectAttempt := 0,
        currentReconnectDelay := 0 }
      (by decide) (by decide)
      (List.Chain.cons (by decide) List.Chain.nil),
   (mqtt_reconnect_gating.2 5000
      { linkReady := true, connectOk := true, dropped := false }
      { connected := false, lastReconnectAttempt := 0,
        currentReconnectDelay := 16000 }
      (by decide) (by decide)).2⟩

/-- One of the ten registry records of the claim-C7 scenario: a sensor at
bus address `[40,0,0,0,0,0,0,i]` currently reading `temp`. -/
def scenarioSensor (i : Nat) (temp : ℚ) : TemperatureSensor :=
  { freshSensor [40, 0, 0, 0, 0, 0, 0, i] with temperature := temp }

/-- Claim C7: with 10 sensors in the registry and the display sensor
configured to the first one, a connected publication cycle emits, in
order: the display sensor's value, first and on its own; batch 1 with
sensors 0-3, a 100 ms pause after each sensor and the 500 ms batch pause;
both relay states, exactly once, immediately after batch 1; batch 2 with
sensors 4-7 paced the same way; and batch 3 with the remaining sensors
8-9 — exactly 3 batches of sizes 4, 4 and 2. -/
theorem publication_cycle_batches
    (t0 t1 t2 t3 t4 t5 t6 t7 t8 t9 : ℚ) (r0 r1 : Bool) :
    publicationCycle
      [scenarioSensor 0 t0, scenarioSensor 1 t1, scenarioSensor 2 t2,
       scenarioSensor 3 t3, scenarioSensor 4 t4, scenarioSensor 5 t5,
       scenarioSensor 6 t6, scenarioSensor 7 t7, scenarioSensor 8 t8,
       scenarioSensor 9 t9]
      [40, 0, 0, 0, 0, 0, 0, 0] r0 r1
    = [PubEvent.pubDisplay [40, 0, 0, 0, 0, 0, 0, 0] t0,
       PubEvent.pubSensor (scenarioSensor 0 t0), PubEvent.delayMs 100,
       PubEvent.pubSensor (scenarioSensor 1 t1), PubEvent.delayMs 100,
       PubEvent.pubSensor (scenarioSensor 2 t2), PubEvent.delayMs 100,
       PubEvent.pubSensor (scenarioSensor 3 t3), PubEvent.delayMs 100,
       PubEvent.delayMs 500,
       PubEvent.pubRelayState 0 r0, PubEvent.pubRelayState 1 r1,
       PubEvent.pubSensor (scenarioSensor 4 t4), PubEvent.delayMs 100,
       PubEvent.pubSensor (scenarioSensor 5 t5), PubEvent.delayMs 100,
       PubEvent.pubSensor (scenarioSensor 6 t6), PubEvent.delayMs 100,
       PubEvent.pubSensor (scenarioSensor 7 t7), PubEvent.delayMs 100,
       PubEvent.delayMs 500,
       PubEvent.pubSensor (scenarioSensor 8 t8), PubEvent.delayMs 100,
       PubEvent.pubSensor (scenarioSensor 9 t9), PubEvent.delayMs 100,
       PubEvent.delayMs 500] := by
  simp only [publicationCycle, publishSensorBatch, findExisting, scenarioSensor,
    freshSensor, SENSOR_BATCH_SIZE, BATCH_DELAY_MS, SENSOR_DELAY_MS,
    DEVICE_DISCONNECTED_C]
  norm_num [List.range_succ]

/-- Claim C9: submitting a relay-change request `requested = true` for a
relay whose `actual` is false drives, on the next actuation tick, exactly
one physical write for that relay, sets `actual := true` and stamps
`lastChangeTime` with the tick time; repeating the identical request on
the following tick drives no further write for that relay and leaves its
record — `lastChangeTime` included — unchanged. -/
theorem relay_single_transition (r : Fin 2)
    (states : RelayState × RelayState) (now1 now2 : Nat)
    (hact : (relayAt r states).actual = false) :
    ((controlTick [{ relayId := r, state := true }] now1 states).2.countP
        (fun w => decide (w.1 = r)) = 1) ∧
    (relayAt r (controlTick [{ relayId := r, state := true }] now1
        states).1).actual = true ∧
    (relayAt r (controlTick [{ relayId := r, state := true }] now1
        states).1).requested = true ∧
    (relayAt r (controlTick [{ relayId := r, state := true }] now1
        states).1).lastChangeTime = now1 ∧
    ((controlTick [{ relayId := r, state := true }] now2
        (controlTick [{ relayId := r, state := true }] now1 states).1).2.countP
        (fun w => decide (w.1 = r)) = 0) ∧
    relayAt r (controlTick [{ relayId := r, state := true }] now2
        (controlTick [{ relayId := r, state := true }] now1 states).1).1
      = relayAt r (controlTick [{ relayId := r, state := true }] now1
        states).1 := by
  obtain ⟨sa, sb⟩ := states
  fin_cases r
  · have ha : sa.actual = false := by simpa [relayAt] using hact
    simp only [controlTick, processRelayMessages, applyRelayMessage,
      List.foldl_cons, List.foldl_nil, relayAt]
    by_cases hb : sb.requested ≠ sb.actual <;>
      simp [relayWrite, reconcileRelay, ha, hb, List.countP_append,
        List.countP_cons, List.countP_nil]
  · have hb : sb.actual = false := by simpa [relayAt] using hact
    simp only [controlTick, processRelayMessages, applyRelayMessage,
      List.foldl_cons, List.foldl_nil, relayAt]
    by_cases ha : sa.requested ≠ sa.actual <;>
      simp [relayWrite, reconcileRelay, hb, ha, List.countP_append,
        List.countP_cons, List.countP_nil]

/-- Witness for `relay_single_transition`: relay 0 starting
`requested = false, actual = false` and commanded on at t = 40 is driven
exactly once and stamped at 40. -/
theorem relay_single_transition_witness :
    ((controlTick [{ relayId := 0, state := true }] 40
        ({ requested := false, actual := false, lastChangeTime := 0 },
         { requested := false, actual := false, lastChangeTime := 0 })).2.countP
        (fun w => decide (w.1 = (0 : Fin 2))) = 1) ∧
    (relayAt 0 (controlTick [{ relayId := 0, state := true }] 40
        ({ requested := false, actual := false, lastChangeTime := 0 },
         { requested := false, actual := false, lastChangeTime := 0 })).1).lastChangeTime
      = 40 :=
  ⟨(relay_single_transition 0
      ({ requested := false, actual := false, lastChangeTime := 0 },
       { requested := false, actual := false, lastChangeTime := 0 })
      40 41 (by decide)).1,
   (relay_single_transition 0
      ({ requested := false, actual := false, lastChangeTime := 0 },
       { requested := false, actual := false, lastChangeTime := 0 })
      40 41 (by decide)).2.2.2.1⟩
